import Mathlib

/-!
Verification of `ml-models/universal_train.py` (MLOps-Framework).

The script is a single linear pipeline: detect the compute environment,
configure the experiment tracker, generate a synthetic dataset, split it,
fit a random-forest classifier, evaluate accuracy, and log everything.

The shallow embedding below models the script's own control flow and data
flow exactly.  Calls into third-party libraries (platform, tensorflow,
torch, mlflow, scikit-learn) are modelled by their documented contracts:
the outside world (which imports succeed, whether a GPU is present,
whether the tracking endpoint answers, the OS entropy a seedless call
would consume) is an explicit input, and each library call is a
deterministic function of its arguments plus that input.  Python
exceptions are modelled with `Except`.
-/

/-- Outcome of one optional-library probe block in
`detect_compute_environment` (universal_train.py lines 30-37 for the
tensorflow block, 39-46 for the torch block).  `ok gpu` means the block
ran to completion and `gpu` says whether a GPU device was reported
(`tf.config.list_physical_devices('GPU')` nonempty, resp.
`torch.cuda.is_available()`); `importError` means the block raised
`ImportError`; `otherError` means it raised any other exception. -/
inductive ProbeOutcome where
  | ok (gpu : Bool)
  | importError
  | otherError
  deriving DecidableEq, Repr

/-- The outside world as seen by the script: the platform metadata
(`platform.system()`, `platform.machine()`, `platform.python_version()`),
and the outcomes of the two optional GPU-library probe blocks. -/
structure World where
  platform_system : String
  platform_machine : String
  python_version : String
  tf : ProbeOutcome
  torch : ProbeOutcome
  deriving DecidableEq, Repr

/-- The `env_info` dict built by `detect_compute_environment`
(universal_train.py lines 21-27): exactly five keys in every branch. -/
structure EnvInfo where
  platform : String
  architecture : String
  python_version : String
  gpu_available : Bool
  gpu_type : Option String
  deriving DecidableEq, Repr

/-- An uncaught Python exception escaping the script. -/
inductive PyErr where
  /-- A non-ImportError exception raised inside one of the GPU probe
  blocks; the `except ImportError` clauses do not catch it. -/
  | probeError
  /-- A failure of an mlflow tracking-service operation (endpoint
  unreachable); no handler exists anywhere in the script. -/
  | trackingError
  deriving DecidableEq, Repr

/-- Embedding of `detect_compute_environment` (universal_train.py lines
19-50).  The dict is initialised with `gpu_available = False`,
`gpu_type = None`; the tensorflow block runs first; its `except
ImportError` falls through to the torch block, whose own `except
ImportError` falls through to a print.  Only `ImportError` is caught:
any other exception from either block propagates (`Except.error`). -/
def detect_compute_environment (w : World) : Except PyErr EnvInfo :=
  let env_info : EnvInfo :=
    { platform := w.platform_system
      architecture := w.platform_machine
      python_version := w.python_version
      gpu_available := false
      gpu_type := none }
  match w.tf with
  | ProbeOutcome.ok true =>
      Except.ok { env_info with gpu_available := true, gpu_type := some "CUDA" }
  | ProbeOutcome.ok false => Except.ok env_info
  | ProbeOutcome.otherError => Except.error PyErr.probeError
  | ProbeOutcome.importError =>
      match w.torch with
      | ProbeOutcome.ok true =>
          Except.ok { env_info with gpu_available := true, gpu_type := some "CUDA" }
      | ProbeOutcome.ok false => Except.ok env_info
      | ProbeOutcome.otherError => Except.error PyErr.probeError
      | ProbeOutcome.importError => Except.ok env_info

/-- A world in which no GPU library is installed at all: both probe
blocks raise `ImportError`. -/
def cpuWorld : World :=
  { platform_system := "Linux"
    platform_machine := "x86_64"
    python_version := "3.12.1"
    tf := ProbeOutcome.importError
    torch := ProbeOutcome.importError }

/-- A world in which tensorflow imports and reports a GPU. -/
def gpuWorld : World := { cpuWorld with tf := ProbeOutcome.ok true }

/-- A world in which the tensorflow probe block raises an exception that
is not an `ImportError` (e.g. a DLL load failure surfacing as an
`OSError` during `import tensorflow`). -/
def badProbeWorld : World := { cpuWorld with tf := ProbeOutcome.otherError }

/-- C10: in every branch of `detect_compute_environment` that returns
normally, `gpu_available` and `gpu_type` are set together:
`gpu_available` is true exactly when `gpu_type` is `"CUDA"`, and
`gpu_type` is `None` exactly when `gpu_available` is false. -/
theorem detect_gpu_fields_consistent (w : World) (env : EnvInfo)
    (h : detect_compute_environment w = Except.ok env) :
    (env.gpu_available = true ↔ env.gpu_type = some "CUDA") ∧
      (env.gpu_type = none ↔ env.gpu_available = false) := by
  obtain ⟨p, m, v, tf, tor⟩ := w
  cases tf with
  | ok g =>
      cases g <;> simp [detect_compute_environment] at h <;> simp [← h]
  | otherError => simp [detect_compute_environment] at h
  | importError =>
      cases tor with
      | ok g =>
          cases g <;> simp [detect_compute_environment] at h <;> simp [← h]
      | otherError => simp [detect_compute_environment] at h
      | importError =>
          simp [detect_compute_environment] at h
          simp [← h]

/-- Witness for C10: the invariant evaluated on a concrete GPU world. -/
theorem detect_gpu_fields_consistent_witness :
    detect_compute_environment gpuWorld =
        Except.ok { platform := "Linux", architecture := "x86_64",
                    python_version := "3.12.1", gpu_available := true,
                    gpu_type := some "CUDA" } ∧
      ((true = true ↔ some "CUDA" = some "CUDA") ∧
        ((some "CUDA" : Option String) = none ↔ true = false)) :=
  ⟨rfl, detect_gpu_fields_consistent gpuWorld _ rfl⟩

/-- C6: when both optional GPU libraries are absent (both probe blocks
raise `ImportError`), `detect_compute_environment` returns the dict with
`gpu_available = False` and `gpu_type = None`, the platform fields taken
from the system metadata. -/
theorem detect_both_libraries_absent (w : World)
    (htf : w.tf = ProbeOutcome.importError)
    (hto : w.torch = ProbeOutcome.importError) :
    detect_compute_environment w =
      Except.ok { platform := w.platform_system
                  architecture := w.platform_machine
                  python_version := w.python_version
                  gpu_available := false
                  gpu_type := none } := by
  simp [detect_compute_environment, htf, hto]

/-- Witness for C6: both probes of `cpuWorld` raise `ImportError`, and
the returned record has `gpu_available = false` and `gpu_type = none`. -/
theorem detect_both_libraries_absent_witness :
    cpuWorld.tf = ProbeOutcome.importError ∧
      cpuWorld.torch = ProbeOutcome.importError ∧
      detect_compute_environment cpuWorld =
        Except.ok { platform := "Linux", architecture := "x86_64",
                    python_version := "3.12.1", gpu_available := false,
                    gpu_type := none } :=
  ⟨rfl, rfl, detect_both_libraries_absent cpuWorld rfl rfl⟩

/-- C7: the probes run in a fixed priority order — the torch probe is
reached only when the tensorflow block raises `ImportError`, so whenever
the tensorflow probe does not raise `ImportError` the result is
independent of the torch probe — and every normal return is the
five-field record populated from the system metadata. -/
theorem detect_probe_priority_and_shape (w w' : World)
    (hp : w.platform_system = w'.platform_system)
    (hm : w.platform_machine = w'.platform_machine)
    (hv : w.python_version = w'.python_version)
    (htf : w.tf = w'.tf)
    (hne : w.tf ≠ ProbeOutcome.importError) :
    detect_compute_environment w = detect_compute_environment w' ∧
      ∀ env : EnvInfo, detect_compute_environment w = Except.ok env →
        env.platform = w.platform_system ∧
          env.architecture = w.platform_machine ∧
          env.python_version = w.python_version := by
  obtain ⟨p, m, v, tf, tor⟩ := w
  obtain ⟨p', m', v', tf', tor'⟩ := w'
  simp only at hp hm hv htf hne
  subst hp; subst hm; subst hv; subst htf
  cases tf with
  | ok g =>
      cases g <;>
        refine ⟨rfl, ?_⟩ <;>
        intro env h <;>
        simp [detect_compute_environment] at h <;>
        simp [← h]
  | importError => exact absurd rfl hne
  | otherError =>
      refine ⟨rfl, ?_⟩
      intro env h
      simp [detect_compute_environment] at h

/-- Witness for C7: with the tensorflow probe completing (no GPU), the
torch probe outcome does not change the result. -/
theorem detect_probe_priority_and_shape_witness :
    ({ cpuWorld with tf := ProbeOutcome.ok false } : World).tf ≠
        ProbeOutcome.importError ∧
      detect_compute_environment { cpuWorld with tf := ProbeOutcome.ok false } =
        detect_compute_environment
          { cpuWorld with tf := ProbeOutcome.ok false,
                          torch := ProbeOutcome.otherError } :=
  ⟨by decide,
    (detect_probe_priority_and_shape
      { cpuWorld with tf := ProbeOutcome.ok false }
      { cpuWorld with tf := ProbeOutcome.ok false,
                      torch := ProbeOutcome.otherError }
      rfl rfl rfl rfl (by decide)).1⟩

/-- C5 counterexample: the claim says every failure during the GPU
probing — not only a missing library — is absorbed and the function
always returns normally.  It is false: the `except` clauses catch only
`ImportError`, so in `badProbeWorld`, where the tensorflow block raises
a non-ImportError exception, `detect_compute_environment` propagates
the exception instead of returning. -/
theorem detect_raises_on_non_import_error :
    detect_compute_environment badProbeWorld = Except.error PyErr.probeError :=
  rfl

/-- C5 (amended): `detect_compute_environment` absorbs exactly the
`ImportError` failures of the optional GPU-library probes, recording
GPU unavailable; it returns normally if and only if no probe block that
runs raises a non-ImportError exception.  A non-ImportError exception
propagates out uncaught. -/
theorem detect_absorbs_only_import_errors (w : World) :
    (∃ env, detect_compute_environment w = Except.ok env) ↔
      (w.tf ≠ ProbeOutcome.otherError ∧
        (w.tf = ProbeOutcome.importError →
          w.torch ≠ ProbeOutcome.otherError)) := by
  obtain ⟨p, m, v, tf, tor⟩ := w
  cases tf with
  | ok g => cases g <;> simp [detect_compute_environment]
  | otherError => simp [detect_compute_environment]
  | importError =>
      cases tor with
      | ok g => cases g <;> simp [detect_compute_environment]
      | otherError => simp [detect_compute_environment]
      | importError => simp [detect_compute_environment]

/-- Model of `sklearn.datasets.make_classification` as called at
universal_train.py lines 71-78: a deterministic synthetic dataset of
exactly `n_samples` rows of `n_features` features with labels in
`[0, n_classes)`, a pure function of the resolved seed.  sklearn seeds
its generator from `random_state` when given and from OS entropy
otherwise; the numeric content of the features is abstracted to a cheap
deterministic formula of (seed, row, column), which preserves the
documented contract (shape, label range, determinism in the seed) that
the script relies on. -/
def make_classification (n_samples n_features n_informative n_redundant
    n_classes : Nat) (random_state : Option Nat) (entropy : Nat) :
    List (List Int) × List Nat :=
  let seed := random_state.getD entropy
  ((List.range n_samples).map (fun i =>
      (List.range n_features).map (fun j =>
        (Int.ofNat ((seed + i * n_features + j + n_informative + n_redundant)
          % 17)) - 8)),
   (List.range n_samples).map (fun i => (seed + i) % n_classes))

/-- Model of `sklearn.model_selection.train_test_split` as called at
universal_train.py lines 81-83: the held-out size is
`ceil(test_size * n)` (sklearn's `_validate_shuffle_split`; for
`test_size = 0.2`, `n = 1000` the float product is exactly 200.0, so the
exact rational ceiling below agrees), the train size is the remainder,
and the rows are permuted deterministically from the resolved seed
before being cut.  The stratified shuffle is abstracted to a rotation —
a seed-determined permutation applied consistently to `X` and `y` —
which preserves the sizes, the pairing of rows with labels, and the
determinism in the seed.  Returns `(X_train, X_test, y_train, y_test)`. -/
def train_test_split (X : List (List Int)) (y : List Nat)
    (test_size : Rat) (random_state : Option Nat) (entropy : Nat)
    (stratify : Option (List Nat)) :
    List (List Int) × List (List Int) × List Nat × List Nat :=
  let seed := random_state.getD entropy
  let n := X.length
  let n_test := (test_size.num.toNat * n + test_size.den - 1) / test_size.den
  let k := seed % n
  let Xs := X.drop k ++ X.take k
  let ys := y.drop k ++ y.take k
  (Xs.drop n_test, Xs.take n_test, ys.drop n_test, ys.take n_test)

/-- Model of `sklearn.metrics.accuracy_score` (default `normalize=True`)
as called at universal_train.py line 96: the fraction of positions where
prediction and truth agree. -/
def accuracy_score (y_true y_pred : List Nat) : Rat :=
  mkRat (List.countP (fun p => p.1 == p.2) (y_true.zip y_pred)) y_true.length

/-- The constructor arguments of `RandomForestClassifier` at
universal_train.py lines 87-91, with `random_state` already resolved to
the concrete seed the library will use. -/
structure RFConfig where
  n_estimators : Nat
  max_depth : Nat
  random_state : Nat
  deriving DecidableEq, Repr

/-- Everything outside the script that `train_model` reads: the probe
world, the `MLFLOW_TRACKING_URI` environment variable (`none` = unset),
whether the tracking endpoint answers, and the OS entropy that any
seedless library call would consume. -/
structure TrainContext where
  world : World
  mlflow_tracking_uri : Option String
  tracking_reachable : Bool
  entropy : Nat

/-- The observable outcome of one successful `train_model` run: the
tracking configuration, everything logged to mlflow (parameters, the
three metrics, the registered model artifact), the dataset and split,
the classifier configuration, the predictions, and the returned
accuracy (universal_train.py line 115). -/
structure RunResult where
  tracking_uri : String
  experiment_name : String
  logged_params : EnvInfo
  X : List (List Int)
  y : List Nat
  X_train : List (List Int)
  X_test : List (List Int)
  y_train : List Nat
  y_test : List Nat
  rf_config : RFConfig
  y_pred : List Nat
  metrics : List (String × Rat)
  model_artifact_path : String
  registered_model_name : String
  accuracy : Rat

/-- Embedding of `train_model` (universal_train.py lines 52-115),
parameterised by `fit`: the behaviour of
`RandomForestClassifier(...).fit(X_train, y_train).predict` — an
arbitrary function from the classifier configuration and the training
split to a prediction function.  The steps mirror the script in order:
detect the environment (an uncaught probe exception propagates), resolve
the tracking URI from the environment variable with the hard-coded
default, contact the tracking service (`mlflow.set_experiment` /
`mlflow.start_run` / logging — unreachable endpoint raises, uncaught),
generate the data with `random_state=42`, split with `test_size=0.2`,
`random_state=42`, `stratify=y`, fit with the fixed hyperparameters
`n_estimators=100, max_depth=10, random_state=42`, predict on the test
split, compute the accuracy, log the three metrics and the model, and
return the accuracy. -/
def train_model
    (fit : RFConfig → List (List Int) → List Nat → (List (List Int) → List Nat))
    (ctx : TrainContext) : Except PyErr RunResult :=
  match detect_compute_environment ctx.world with
  | Except.error e => Except.error e
  | Except.ok env_info =>
    let uri := ctx.mlflow_tracking_uri.getD "http://localhost:5000"
    if ctx.tracking_reachable then
      let data := make_classification 1000 10 5 2 2 (some 42) ctx.entropy
      let X := data.1
      let y := data.2
      let split := train_test_split X y (mkRat 1 5) (some 42) ctx.entropy (some y)
      let X_train := split.1
      let X_test := split.2.1
      let y_train := split.2.2.1
      let y_test := split.2.2.2
      let cfg : RFConfig :=
        { n_estimators := 100, max_depth := 10,
          random_state := (some 42).getD ctx.entropy }
      let model := fit cfg X_train y_train
      let y_pred := model X_test
      let accuracy := accuracy_score y_test y_pred
      Except.ok
        { tracking_uri := uri
          experiment_name := "universal-ml-experiment"
          logged_params := env_info
          X := X
          y := y
          X_train := X_train
          X_test := X_test
          y_train := y_train
          y_test := y_test
          rf_config := cfg
          y_pred := y_pred
          metrics := [("accuracy", accuracy),
                      ("train_samples", (X_train.length : Rat)),
                      ("test_samples", (X_test.length : Rat))]
          model_artifact_path := "random_forest_model"
          registered_model_name := "universal-ml-model"
          accuracy := accuracy }
    else Except.error PyErr.trackingError

/-- A concrete classifier behaviour used to evaluate the theorems: the
constant predictor that labels every row 0. -/
def fit0 : RFConfig → List (List Int) → List Nat → (List (List Int) → List Nat) :=
  fun _ _ _ Xte => Xte.map (fun _ => 0)

/-- A concrete context: no GPU libraries installed, `MLFLOW_TRACKING_URI`
unset, tracking endpoint reachable, entropy 7. -/
def ctx0 : TrainContext :=
  { world := cpuWorld, mlflow_tracking_uri := none,
    tracking_reachable := true, entropy := 7 }

/-- The result of the concrete run `train_model fit0 ctx0`. -/
def r0 : RunResult :=
  match train_model fit0 ctx0 with
  | Except.ok r => r
  | Except.error _ =>
      { tracking_uri := "", experiment_name := "",
        logged_params := { platform := "", architecture := "",
                           python_version := "", gpu_available := false,
                           gpu_type := none },
        X := [], y := [], X_train := [], X_test := [], y_train := [],
        y_test := [], rf_config := { n_estimators := 0, max_depth := 0,
                                     random_state := 0 },
        y_pred := [], metrics := [], model_artifact_path := "",
        registered_model_name := "", accuracy := 0 }

/-- The model of `make_classification` produces exactly `n_samples`
feature rows and exactly `n_samples` labels. -/
theorem make_classification_num_samples (a b c d e : Nat) (rs : Option Nat)
    (ent : Nat) :
    (make_classification a b c d e rs ent).1.length = a ∧
    (make_classification a b c d e rs ent).2.length = a := by
  simp [make_classification]

/-- Sizes of the four components returned by `train_test_split`: the
held-out parts have `ceil(test_size * n)` rows and the training parts
the remaining `n - ceil(test_size * n)`. -/
theorem train_test_split_lengths (X : List (List Int)) (y : List Nat)
    (ts : Rat) (rs : Option Nat) (ent : Nat) (st : Option (List Nat))
    (hy : y.length = X.length) :
    (train_test_split X y ts rs ent st).1.length
        = X.length - (ts.num.toNat * X.length + ts.den - 1) / ts.den ∧
      (train_test_split X y ts rs ent st).2.1.length
        = min ((ts.num.toNat * X.length + ts.den - 1) / ts.den) X.length ∧
      (train_test_split X y ts rs ent st).2.2.1.length
        = X.length - (ts.num.toNat * X.length + ts.den - 1) / ts.den ∧
      (train_test_split X y ts rs ent st).2.2.2.length
        = min ((ts.num.toNat * X.length + ts.den - 1) / ts.den) X.length := by
  simp [train_test_split, hy]
  omega

/-- The accuracy fraction is always in the closed interval [0, 1],
whatever the truth and prediction vectors are. -/
theorem accuracy_score_unit (y_true y_pred : List Nat) :
    0 ≤ accuracy_score y_true y_pred ∧ accuracy_score y_true y_pred ≤ 1 := by
  unfold accuracy_score
  rw [Rat.mkRat_eq_div]
  constructor
  · positivity
  · apply div_le_one_of_le₀
    · have hc : List.countP (fun p => p.1 == p.2) (y_true.zip y_pred)
          ≤ y_true.length := by
        calc List.countP (fun p => p.1 == p.2) (y_true.zip y_pred)
            ≤ (y_true.zip y_pred).length := List.countP_le_length _
          _ ≤ y_true.length := by simp [List.length_zip]
      exact_mod_cast hc
    · positivity

/-- C1: two executions of `train_model` that share the same world, the
same `MLFLOW_TRACKING_URI` value and the same tracking reachability —
but may draw different OS entropy — produce the same result: the same
generated dataset, the same train/test split, the same logged
parameters, and the same accuracy.  The script hard-codes
`random_state=42` into all three seeded library calls, so the entropy a
seedless call would consume never flows into the run. -/
theorem train_model_two_run_determinism (fit : RFConfig → List (List Int) →
      List Nat → (List (List Int) → List Nat)) (ctx1 ctx2 : TrainContext)
    (hw : ctx1.world = ctx2.world)
    (hu : ctx1.mlflow_tracking_uri = ctx2.mlflow_tracking_uri)
    (ht : ctx1.tracking_reachable = ctx2.tracking_reachable) :
    train_model fit ctx1 = train_model fit ctx2 := by
  obtain ⟨w1, u1, t1, e1⟩ := ctx1
  obtain ⟨w2, u2, t2, e2⟩ := ctx2
  simp only at hw hu ht
  subst hw; subst hu; subst ht
  rfl

/-- A second context: identical to `ctx0` except for the OS entropy. -/
def ctx1 : TrainContext := { ctx0 with entropy := 987654321 }

/-- Witness for C1: the two concrete runs differing only in entropy
coincide. -/
theorem train_model_two_run_determinism_witness :
    ctx0.world = ctx1.world ∧
      ctx0.mlflow_tracking_uri = ctx1.mlflow_tracking_uri ∧
      ctx0.tracking_reachable = ctx1.tracking_reachable ∧
      train_model fit0 ctx0 = train_model fit0 ctx1 :=
  ⟨rfl, rfl, rfl, train_model_two_run_determinism fit0 ctx0 ctx1 rfl rfl rfl⟩

/-- C2: every successful `train_model` run splits the 1000 generated
samples into exactly 800 training and 200 test samples, and logs exactly
these numbers as the `train_samples` and `test_samples` metrics. -/
theorem train_model_split_sizes (fit : RFConfig → List (List Int) → List Nat →
      (List (List Int) → List Nat)) (ctx : TrainContext) (r : RunResult)
    (h : train_model fit ctx = Except.ok r) :
    r.X_train.length = 800 ∧ r.X_test.length = 200 ∧
      r.y_train.length = 800 ∧ r.y_test.length = 200 ∧
      r.metrics.lookup "train_samples" = some ((800 : Nat) : Rat) ∧
      r.metrics.lookup "test_samples" = some ((200 : Nat) : Rat) := by
  simp only [train_model] at h
  split at h
  · exact absurd h (by simp)
  · split at h
    · simp only [Except.ok.injEq] at h
      subst h
      have hX := (make_classification_num_samples 1000 10 5 2 2 (some 42) ctx.entropy).1
      have hy := (make_classification_num_samples 1000 10 5 2 2 (some 42) ctx.entropy).2
      have hs := train_test_split_lengths
        (make_classification 1000 10 5 2 2 (some 42) ctx.entropy).1
        (make_classification 1000 10 5 2 2 (some 42) ctx.entropy).2
        (mkRat 1 5) (some 42) ctx.entropy
        (some (make_classification 1000 10 5 2 2 (some 42) ctx.entropy).2)
        (by rw [hX, hy])
      rw [hX] at hs
      rw [show ((mkRat 1 5).num.toNat * 1000 + (mkRat 1 5).den - 1) / (mkRat 1 5).den
            = 200 from rfl,
          show 1000 - 200 = 800 from rfl, show min 200 1000 = 200 from rfl] at hs
      simp [List.lookup, hs.1, hs.2.1, hs.2.2.1, hs.2.2.2]
    · exact absurd h (by simp)

set_option maxRecDepth 100000 in
/-- Witness for C2: the concrete run `train_model fit0 ctx0` succeeds
and its split sizes and logged size metrics are 800/200. -/
theorem train_model_split_sizes_witness :
    train_model fit0 ctx0 = Except.ok r0 ∧
      (r0.X_train.length = 800 ∧ r0.X_test.length = 200 ∧
        r0.y_train.length = 800 ∧ r0.y_test.length = 200 ∧
        r0.metrics.lookup "train_samples" = some ((800 : Nat) : Rat) ∧
        r0.metrics.lookup "test_samples" = some ((200 : Nat) : Rat)) :=
  ⟨rfl, train_model_split_sizes fit0 ctx0 r0 rfl⟩

/-- C3: every successful `train_model` run fits the classifier with the
fixed hyperparameters (`n_estimators=100, max_depth=10,
random_state=42`) on the training split, predicts on the held-out test
split, computes the accuracy of those predictions, returns that scalar
accuracy, and the returned value equals the value logged as the
`accuracy` metric. -/
theorem train_model_fit_eval_contract (fit : RFConfig → List (List Int) →
      List Nat → (List (List Int) → List Nat)) (ctx : TrainContext)
    (r : RunResult) (h : train_model fit ctx = Except.ok r) :
    r.rf_config = { n_estimators := 100, max_depth := 10, random_state := 42 } ∧
      r.y_pred = fit r.rf_config r.X_train r.y_train r.X_test ∧
      r.accuracy = accuracy_score r.y_test r.y_pred ∧
      r.metrics.lookup "accuracy" = some r.accuracy := by
  simp only [train_model] at h
  split at h
  · exact absurd h (by simp)
  · split at h
    · simp only [Except.ok.injEq] at h
      subst h
      refine ⟨rfl, rfl, rfl, ?_⟩
      simp [List.lookup]
    · exact absurd h (by simp)

set_option maxRecDepth 100000 in
/-- Witness for C3: the contract evaluated on the concrete run. -/
theorem train_model_fit_eval_contract_witness :
    train_model fit0 ctx0 = Except.ok r0 ∧
      (r0.rf_config = { n_estimators := 100, max_depth := 10, random_state := 42 } ∧
        r0.y_pred = fit0 r0.rf_config r0.X_train r0.y_train r0.X_test ∧
        r0.accuracy = accuracy_score r0.y_test r0.y_pred ∧
        r0.metrics.lookup "accuracy" = some r0.accuracy) :=
  ⟨rfl, train_model_fit_eval_contract fit0 ctx0 r0 rfl⟩

/-- C4: the accuracy returned by a successful `train_model` run lies in
the closed interval [0, 1] — for every classifier behaviour `fit`, i.e.
for every possible prediction outcome on the test split. -/
theorem train_model_accuracy_unit_interval (fit : RFConfig → List (List Int) →
      List Nat → (List (List Int) → List Nat)) (ctx : TrainContext)
    (r : RunResult) (h : train_model fit ctx = Except.ok r) :
    0 ≤ r.accuracy ∧ r.accuracy ≤ 1 := by
  simp only [train_model] at h
  split at h
  · exact absurd h (by simp)
  · split at h
    · simp only [Except.ok.injEq] at h
      subst h
      exact accuracy_score_unit _ _
    · exact absurd h (by simp)

set_option maxRecDepth 100000 in
/-- Witness for C4: the accuracy bound evaluated on the concrete run. -/
theorem train_model_accuracy_unit_interval_witness :
    train_model fit0 ctx0 = Except.ok r0 ∧
      (0 ≤ r0.accuracy ∧ r0.accuracy ≤ 1) :=
  ⟨rfl, train_model_accuracy_unit_interval fit0 ctx0 r0 rfl⟩

/-- C8: the GPU-detection outcome never influences training.  Two
successful runs whose contexts differ only in the probe world build the
same classifier configuration (the fixed non-GPU hyperparameters), see
the same dataset and split, produce the same predictions, and compute
the same accuracy; only the logged environment parameters can differ. -/
theorem train_model_gpu_noninterference (fit : RFConfig → List (List Int) →
      List Nat → (List (List Int) → List Nat)) (ctx : TrainContext)
    (w' : World) (r r' : RunResult)
    (h : train_model fit ctx = Except.ok r)
    (h' : train_model fit { ctx with world := w' } = Except.ok r') :
    r.rf_config = { n_estimators := 100, max_depth := 10, random_state := 42 } ∧
      r'.rf_config = r.rf_config ∧
      r'.X = r.X ∧ r'.y = r.y ∧
      r'.X_train = r.X_train ∧ r'.X_test = r.X_test ∧
      r'.y_train = r.y_train ∧ r'.y_test = r.y_test ∧
      r'.y_pred = r.y_pred ∧ r'.accuracy = r.accuracy := by
  obtain ⟨w, u, t, e⟩ := ctx
  cases t with
  | false =>
      simp only [train_model] at h
      split at h
      · exact absurd h (by simp)
      · exact absurd h (by simp)
  | true =>
      simp only [train_model] at h h'
      split at h
      · exact absurd h (by simp)
      · split at h'
        · exact absurd h' (by simp)
        · rw [if_pos trivial] at h h'
          simp only [Except.ok.injEq] at h h'
          subst h; subst h'
          exact ⟨rfl, rfl, rfl, rfl, rfl, rfl, rfl, rfl, rfl, rfl⟩

/-- A context identical to `ctx0` except that tensorflow is installed
and reports a GPU. -/
def ctxg : TrainContext := { ctx0 with world := gpuWorld }

/-- The result of the concrete run `train_model fit0 ctxg`. -/
def rg : RunResult :=
  match train_model fit0 ctxg with
  | Except.ok r => r
  | Except.error _ =>
      { tracking_uri := "", experiment_name := "",
        logged_params := { platform := "", architecture := "",
                           python_version := "", gpu_available := false,
                           gpu_type := none },
        X := [], y := [], X_train := [], X_test := [], y_train := [],
        y_test := [], rf_config := { n_estimators := 0, max_depth := 0,
                                     random_state := 0 },
        y_pred := [], metrics := [], model_artifact_path := "",
        registered_model_name := "", accuracy := 0 }

set_option maxRecDepth 100000 in
/-- Witness for C8: the no-GPU run and the GPU run agree on the
classifier configuration and the accuracy. -/
theorem train_model_gpu_noninterference_witness :
    train_model fit0 ctx0 = Except.ok r0 ∧
      train_model fit0 { ctx0 with world := gpuWorld } = Except.ok rg ∧
      rg.rf_config = r0.rf_config ∧ rg.accuracy = r0.accuracy :=
  ⟨rfl, rfl,
    (train_model_gpu_noninterference fit0 ctx0 gpuWorld r0 rg rfl rfl).2.1,
    (train_model_gpu_noninterference fit0 ctx0 gpuWorld r0 rg rfl rfl).2.2.2.2.2.2.2.2.2⟩

/-- C9: the tracking endpoint is `MLFLOW_TRACKING_URI` when set and the
hard-coded `http://localhost:5000` otherwise, and a tracking-service
failure is caught nowhere in the script: when the endpoint is
unreachable (and the environment probe itself returned), `train_model`
terminates with the uncaught tracking exception. -/
theorem train_model_tracking_uri_and_failure (fit : RFConfig →
      List (List Int) → List Nat → (List (List Int) → List Nat))
    (ctx : TrainContext) :
    (∀ r : RunResult, train_model fit ctx = Except.ok r →
        r.tracking_uri = ctx.mlflow_tracking_uri.getD "http://localhost:5000") ∧
      (ctx.mlflow_tracking_uri = none →
        ∀ r : RunResult, train_model fit ctx = Except.ok r →
          r.tracking_uri = "http://localhost:5000") ∧
      (ctx.tracking_reachable = false →
        (∃ env, detect_compute_environment ctx.world = Except.ok env) →
          train_model fit ctx = Except.error PyErr.trackingError) := by
  obtain ⟨w, u, t, e⟩ := ctx
  refine ⟨?_, ?_, ?_⟩
  · intro r h
    simp only [train_model] at h
    split at h
    · exact absurd h (by simp)
    · split at h
      · simp only [Except.ok.injEq] at h
        subst h
        rfl
      · exact absurd h (by simp)
  · intro hu r h
    simp only at hu
    subst hu
    simp only [train_model] at h
    split at h
    · exact absurd h (by simp)
    · split at h
      · simp only [Except.ok.injEq] at h
        subst h
        rfl
      · exact absurd h (by simp)
  · intro ht henv
    obtain ⟨env, henv⟩ := henv
    simp only at ht
    subst ht
    simp only [train_model, henv]
    exact if_neg (by simp)

/-- A context identical to `ctx0` except that the tracking endpoint is
unreachable. -/
def ctxu : TrainContext := { ctx0 with tracking_reachable := false }

/-- Witness for C9: with the endpoint unreachable, the concrete run
terminates with the uncaught tracking exception. -/
theorem train_model_tracking_uri_and_failure_witness :
    ctxu.tracking_reachable = false ∧
      train_model fit0 ctxu = Except.error PyErr.trackingError :=
  ⟨rfl, (train_model_tracking_uri_and_failure fit0 ctxu).2.2 rfl ⟨_, rfl⟩⟩
